import Mathlib

/-!
Shallow embedding of the AdminDashboardApp repository: the NestJS backend
post store (posts.service.ts), its validation DTOs (create-post.dto.ts,
update-post.dto.ts), the user store interface it depends on, and the
frontend HTTP client (frontend/src/services/api.ts), together with
theorems settling the frozen claims about them.
-/

namespace AdminDashboard

/-- A post record, from backend/src/posts/entities/post.entity mirrored by
the seed fixtures in posts.service.ts: id, userId, title, body. -/
structure Post where
  id : Nat
  userId : Nat
  title : String
  body : String
deriving DecidableEq, Repr

/-- CreatePostDto (create-post.dto.ts): userId (IsNumber, IsNotEmpty),
title (IsString, IsNotEmpty, MinLength 5), body (IsString, IsNotEmpty,
MinLength 10). The global ValidationPipe runs with whitelist and
forbidNonWhitelisted, so a create payload carries exactly these keys. -/
structure CreatePostDto where
  userId : Nat
  title : String
  body : String
deriving DecidableEq, Repr

/-- UpdatePostDto (update-post.dto.ts): PartialType of CreatePostDto, so
every CreatePostDto field becomes optional, plus an explicitly declared
optional id field (IsNumber, IsOptional). An absent field is one the
caller did not send; class-transformer leaves absent keys off the
instance, so the object spread in update does not touch them. -/
structure UpdatePostDto where
  id : Option Nat
  userId : Option Nat
  title : Option String
  body : Option String
deriving DecidableEq, Repr

/-- The error taxonomy the services throw: NotFoundException maps to
HTTP 404, BadRequestException to HTTP 400. -/
inductive ApiException where
  | notFound (msg : String)
  | badRequest (msg : String)
deriving DecidableEq, Repr

/-- State of the post store plus the user ids visible to it through
UsersService. The posts list and nextId are the two private fields of
PostsService; users stands for the id set of the injected UsersService. -/
structure PostState where
  users : List Nat
  posts : List Post
  nextId : Nat
deriving DecidableEq, Repr

/-- Modelled from the spec: users.service.ts is not among the sources, and
the spec describes its exists operation as, quote, exists(id) returns a
boolean, used by the Post Store for referential checks. We model the user
store as the list of its user ids and exists as membership. -/
def usersExists (users : List Nat) (id : Nat) : Bool :=
  users.contains id

/-- Array.prototype.findIndex, in Option form: index of the first element
satisfying the predicate (JS returns -1, embedded here as none). -/
def findIndexP {α : Type} (pred : α → Bool) : List α → Option Nat
  | [] => none
  | x :: xs => if pred x then some 0 else (findIndexP pred xs).map (· + 1)

/-- PostsService.findAll: returns the posts array. -/
def findAll (st : PostState) : List Post :=
  st.posts

/-- PostsService.findOne: first post with the given id, else
NotFoundException. -/
def findOne (st : PostState) (id : Nat) : Except ApiException Post :=
  match st.posts.find? (fun p => p.id == id) with
  | some p => .ok p
  | none => .error (.notFound ("Post with ID " ++ toString id ++ " not found"))

/-- PostsService.create: BadRequestException when the referenced user does
not exist; otherwise builds the new post as an object literal whose id is
nextId (post-incremented) spread with the dto (the dto cannot carry an id
key, the whitelist pipe rejects unknown keys on CreatePostDto), pushes it
and returns it. The returned pair is (result, state after the call). -/
def create (st : PostState) (dto : CreatePostDto) :
    Except ApiException Post × PostState :=
  if !(usersExists st.users dto.userId) then
    (.error (.badRequest ("User with ID " ++ toString dto.userId ++ " not found")), st)
  else
    let newPost : Post :=
      { id := st.nextId, userId := dto.userId, title := dto.title, body := dto.body }
    (.ok newPost,
      { st with posts := st.posts ++ [newPost], nextId := st.nextId + 1 })

/-- JS truthiness of a number: 0 (and NaN) are falsy, everything else
truthy. Over Nat this is being nonzero. -/
def jsTruthyNat (n : Nat) : Bool :=
  n != 0

/-- The merge of update: the object spread of the dto over the stored post,
field by field; keys absent from the dto leave the stored value. The dto
id key, when present, overrides the stored id. -/
def applyUpdate (old : Post) (dto : UpdatePostDto) : Post :=
  { id := dto.id.getD old.id
    userId := dto.userId.getD old.userId
    title := dto.title.getD old.title
    body := dto.body.getD old.body }

/-- PostsService.update: findIndex on id, NotFoundException when absent;
then the guard updatePostDto.userId and not exists(updatePostDto.userId) -
note the truthiness test, a userId of 0 skips the existence check - throws
BadRequestException; otherwise stores and returns the spread merge. -/
def update (st : PostState) (id : Nat) (dto : UpdatePostDto) :
    Except ApiException Post × PostState :=
  match findIndexP (fun p => p.id == id) st.posts with
  | none =>
    (.error (.notFound ("Post with ID " ++ toString id ++ " not found")), st)
  | some i =>
    let userIdCheckFails :=
      match dto.userId with
      | some u => jsTruthyNat u && !(usersExists st.users u)
      | none => false
    if userIdCheckFails then
      (.error (.badRequest ("User with ID " ++
        toString (dto.userId.getD 0) ++ " not found")), st)
    else
      match st.posts[i]? with
      | some old =>
        let updatedPost := applyUpdate old dto
        (.ok updatedPost, { st with posts := st.posts.set i updatedPost })
      | none =>
        -- unreachable: findIndexP returned some i, so i < posts.length
        (.error (.notFound ("Post with ID " ++ toString id ++ " not found")), st)

/-- PostsService.remove: findIndex on id, NotFoundException when absent,
else splice(index, 1). -/
def remove (st : PostState) (id : Nat) :
    Except ApiException Unit × PostState :=
  match findIndexP (fun p => p.id == id) st.posts with
  | none =>
    (.error (.notFound ("Post with ID " ++ toString id ++ " not found")), st)
  | some i => (.ok (), { st with posts := st.posts.eraseIdx i })

/-- PostsService.findByUserId: filter on userId equality. -/
def findByUserId (st : PostState) (userId : Nat) : List Post :=
  st.posts.filter (fun p => p.userId == userId)

/-- The ten seeded posts of posts.service.ts (ids 1 to 10, userIds
1,1,1,1,1,2,2,2,3,3). -/
def seedPosts : List Post :=
  [ { id := 1, userId := 1,
      title := "sunt aut facere repellat provident occaecati excepturi optio reprehenderit",
      body := "quia et suscipit\nsuscipit recusandae consequuntur expedita et cum\nreprehenderit molestiae ut ut quas totam\nnostrum rerum est autem sunt rem eveniet architecto" },
    { id := 2, userId := 1,
      title := "qui est esse",
      body := "est rerum tempore vitae\nsequi sint nihil reprehenderit dolor beatae ea dolores neque\nfugiat blanditiis voluptate porro vel nihil molestiae ut reiciendis\nqui aperiam non debitis possimus qui neque nisi nulla" },
    { id := 3, userId := 1,
      title := "ea molestias quasi exercitationem repellat qui ipsa sit aut",
      body := "et iusto sed quo iure\nvoluptatem occaecati omnis eligendi aut ad\nvoluptatem doloribus vel accusantium quis pariatur\nmolestiae porro eius odio et labore et velit aut" },
    { id := 4, userId := 1,
      title := "eum et est occaecati",
      body := "ullam et saepe reiciendis voluptatem adipisci\nsit amet autem assumenda provident rerum culpa\nquis hic commodi nesciunt rem tenetur doloremque ipsam iure\nquis sunt voluptatem rerum illo velit" },
    { id := 5, userId := 1,
      title := "nesciunt quas odio",
      body := "repudiandae veniam quaerat sunt sed\nalias aut fugiat sit autem sed est\nvoluptatem omnis possimus esse voluptatibus quis\nest aut tenetur dolor neque" },
    { id := 6, userId := 2,
      title := "dolorem eum magni eos aperiam quia",
      body := "ut aspernatur corporis harum nihil quis provident sequi\nmollitia nobis aliquid molestiae\nperspiciatis et ea nemo ab reprehenderit accusantium quas\nvoluptate dolores velit et doloremque molestiae" },
    { id := 7, userId := 2,
      title := "magnam facilis autem",
      body := "dolore placeat quibusdam ea quo vitae\nmagni quis enim qui quis quo nemo aut saepe\nquidem repellat excepturi ut quia\nsunt ut sequi eos ea sed quas" },
    { id := 8, userId := 2,
      title := "dolorem dolore est ipsam",
      body := "dignissimos aperiam dolorem qui eum\nfacilis quibusdam animi sint suscipit qui sint possimus cum\nquaerat magni maiores excepturi\nipsam ut commodi dolor voluptatum modi aut vitae" },
    { id := 9, userId := 3,
      title := "nesciunt iure omnis dolorem tempora et accusantium",
      body := "consectetur animi nesciunt iure dolore\nenim quia ad\nveniam autem ut quam aut nobis\net est aut quod aut provident voluptas autem voluptas" },
    { id := 10, userId := 3,
      title := "optio molestias id quia eum",
      body := "quo et expedita modi cum officia vel magni\ndoloribus qui repudiandae\nvero nisi sit\nquos veniam quod sed accusamus veritatis error" } ]

/-- The seeded store state: the ten fixture posts, nextId 11, and the ten
seeded user ids of the user store (JSONPlaceholder fixtures, ids 1 to 10). -/
def seedPostState : PostState :=
  { users := [1, 2, 3, 4, 5, 6, 7, 8, 9, 10]
    posts := seedPosts
    nextId := 11 }

/-- The title constraint of CreatePostDto: IsString holds by typing,
IsNotEmpty rejects the empty string, MinLength 5 rejects shorter titles.
String.length counts characters, matching JS length on these ASCII
payloads. -/
def titleValid (t : String) : Bool :=
  t != "" && t.length >= 5

/-- The body constraint of CreatePostDto: IsNotEmpty and MinLength 10. -/
def bodyValid (b : String) : Bool :=
  b != "" && b.length >= 10

/-- The ValidationPipe check of a create payload against CreatePostDto:
userId passes IsNumber by typing, title and body must satisfy their
per-field constraints. -/
def validateCreatePost (dto : CreatePostDto) : Bool :=
  titleValid dto.title && bodyValid dto.body

/-- The ValidationPipe check of an update payload against UpdatePostDto:
PartialType keeps each per-field constraint but only applies it when the
field is present; the extra id field carries IsNumber and IsOptional only,
which the typed embedding always satisfies. -/
def validateUpdatePost (dto : UpdatePostDto) : Bool :=
  (match dto.title with
   | some t => titleValid t
   | none => true) &&
  (match dto.body with
   | some b => bodyValid b
   | none => true)

/-- Geo coordinates of the nested address (create-user.dto.ts GeoDto). -/
structure Geo where
  lat : String
  lng : String
deriving DecidableEq, Repr

/-- Nested address of a user (create-user.dto.ts AddressDto). -/
structure Address where
  street : String
  suite : String
  city : String
  zipcode : String
  geo : Geo
deriving DecidableEq, Repr

/-- Nested company info of a user (create-user.dto.ts CompanyDto). -/
structure Company where
  name : String
  catchPhrase : String
  bs : String
deriving DecidableEq, Repr

/-- A user record: store-assigned id plus the CreateUserDto fields. -/
structure User where
  id : Nat
  name : String
  username : String
  email : String
  phone : Option String
  website : Option String
  address : Option Address
  company : Option Company
deriving DecidableEq, Repr

/-- CreateUserDto (create-user.dto.ts): required name, username, email,
optional phone, website, address, company. -/
structure CreateUserDto where
  name : String
  username : String
  email : String
  phone : Option String
  website : Option String
  address : Option Address
  company : Option Company
deriving DecidableEq, Repr

/-- State of the user store: its list of users and its identifier
counter. -/
structure UserState where
  users : List User
  nextUserId : Nat
deriving DecidableEq, Repr

/-- Modelled from the spec: users.service.ts is not among the sources; the
spec describes create as, quote, assigns next sequential identifier,
appends, returns new record. -/
def usersCreate (st : UserState) (dto : CreateUserDto) : User × UserState :=
  let newUser : User :=
    { id := st.nextUserId, name := dto.name, username := dto.username
      email := dto.email, phone := dto.phone, website := dto.website
      address := dto.address, company := dto.company }
  (newUser, { st with users := st.users ++ [newUser], nextUserId := st.nextUserId + 1 })

/-- Modelled from the spec: getById(id) returns the record or a not-found
signal; the user id is unique within the store, so the first match is the
record. -/
def usersFindOne (st : UserState) (id : Nat) : Except ApiException User :=
  match st.users.find? (fun u => u.id == id) with
  | some u => .ok u
  | none => .error (.notFound "User not found")

/-- A decoded JSON value, the possible results of response.json() in the
frontend HTTP client (api.ts). Numbers are modelled as integers; no claim
touches fractional payloads. -/
inductive Json where
  | null
  | bool (b : Bool)
  | num (n : Int)
  | str (s : String)
  | arr (items : List Json)
  | obj (entries : List (String × Json))

/-- JS truthiness of a decoded JSON value: null, false, 0 and the empty
string are falsy; arrays and objects are always truthy. -/
def jsTruthy : Json → Bool
  | .null => false
  | .bool b => b
  | .num n => n != 0
  | .str s => s != ""
  | .arr _ => true
  | .obj _ => true

/-- The JS test typeof x === Object: true for null, arrays and plain
objects, false for booleans, numbers and strings. -/
def typeofObject : Json → Bool
  | .null => true
  | .arr _ => true
  | .obj _ => true
  | _ => false

/-- The JS test key in x for a decoded JSON value: own-property lookup.
Objects own exactly their entries; arrays own only numeric indices, so a
string key such as data is never in an array. -/
def hasProp (j : Json) (key : String) : Bool :=
  match j with
  | .obj entries => entries.any (fun kv => kv.1 == key)
  | _ => false

/-- JS property access x.key on a non-null decoded JSON value: the entry
value for objects, undefined (here Option.none) otherwise. Access on null
throws and is handled at the call sites. -/
def jsonGet (j : Json) (key : String) : Option Json :=
  match j with
  | .obj entries =>
    match entries.find? (fun kv => kv.1 == key) with
    | some kv => some kv.2
    | none => none
  | _ => none

/-- The JS expression v or-else d (the logical-or defaulting idiom used in
handleHttpError): the value when present and truthy, else the default;
undefined (none) is falsy. -/
def jsOr (v : Option Json) (d : Json) : Json :=
  match v with
  | some j => if jsTruthy j then j else d
  | none => d

/-- The response-envelope unwrapping shared by all five verb wrappers of
ApiClient: when the decoded body is truthy, of object type and has a data
property, return that property, else return the raw decoded body. -/
def unwrapEnvelope (j : Json) : Json :=
  if jsTruthy j && typeofObject j && hasProp j "data" then
    (jsonGet j "data").getD .null
  else
    j

/-- The normalized error record of the frontend client ({status, message,
details}); message and details are whatever JS values the code assigns, so
they are kept as decoded JSON values. -/
structure ApiError where
  status : Nat
  message : Json
  details : Json

/-- The body of an HTTP response as the client sees it: empty text, text
that fails JSON decoding (carrying the platform parse-error message), or a
decoded JSON value. -/
inductive BodyData where
  | empty
  | invalid (parseMsg : String)
  | json (j : Json)

/-- What a request attempt produced: a network-level failure before any
response existed (fetch rejected, carrying the Error message), or a
response with its status, statusText and body. -/
inductive RequestOutcome where
  | netFail (msg : String)
  | resp (status : Nat) (statusText : String) (body : BodyData)

/-- The fetch ok flag: status in the inclusive range 200 to 299. -/
def responseOk (status : Nat) : Bool :=
  200 <= status && status < 300

/-- ApiClient.handleHttpError: status is the response status; message
defaults to HTTP Error status, then the try block decodes the error body
and takes errorBody.message or-else the default and errorBody.details
or-else the empty string; when decoding throws (no body, invalid JSON, or
property access on a null body), the catch takes statusText or-else the
default message and details stays the initial empty string. -/
def handleHttpError (status : Nat) (statusText : String) (body : BodyData) : ApiError :=
  let defaultMsg : String := "HTTP Error: " ++ toString status
  match body with
  | .json .null =>
    { status := status
      message := .str (if statusText == "" then defaultMsg else statusText)
      details := .str "" }
  | .json j =>
    { status := status
      message := jsOr (jsonGet j "message") (.str defaultMsg)
      details := jsOr (jsonGet j "details") (.str "") }
  | _ =>
    { status := status
      message := .str (if statusText == "" then defaultMsg else statusText)
      details := .str "" }

/-- What the catch blocks of the verb wrappers receive: an already
normalized error object (thrown by handleHttpError, recognizable by its
status property), a JS Error (fetch network failures, JSON parse
failures), or any other thrown value. -/
inductive Thrown where
  | apiErr (e : ApiError)
  | jsError (msg : String)
  | other

/-- ApiClient.handleRequestError: an object with a status property passes
through unchanged; an Error instance becomes status 0 with the Error
message or-else a network-error default; anything else becomes status 0
with fixed unknown-error texts. -/
def handleRequestError : Thrown → ApiError
  | .apiErr e => e
  | .jsError m =>
    { status := 0
      message := .str (if m == "" then "Network error occurred" else m)
      details := .str "Request failed due to network issues" }
  | .other =>
    { status := 0
      message := .str "Unknown error occurred"
      details := .str "An unexpected error happened during the request" }

/-- The V8 message of the SyntaxError raised by decoding an empty body. -/
def emptyBodyParseMsg : String :=
  "Unexpected end of JSON input"

/-- ApiClient.get, as a function of the request outcome: a network failure
rejects and the catch normalizes it; a non-ok response throws the
handleHttpError record which the catch passes through; an ok response has
its body decoded (a decode failure is a SyntaxError, normalized to status
0 by the catch) and unwrapped. -/
def getResult : RequestOutcome → Except ApiError Json
  | .netFail m => .error (handleRequestError (.jsError m))
  | .resp s stx b =>
    if responseOk s then
      match b with
      | .json j => .ok (unwrapEnvelope j)
      | .empty => .error (handleRequestError (.jsError emptyBodyParseMsg))
      | .invalid pm => .error (handleRequestError (.jsError pm))
    else
      .error (handleRequestError (.apiErr (handleHttpError s stx b)))

/-- ApiClient.post: serializes its request body, then behaves as get does
on the outcome (the outcome already reflects whatever the server did with
the request body). -/
def postResult (_reqBody : Json) : RequestOutcome → Except ApiError Json
  | .netFail m => .error (handleRequestError (.jsError m))
  | .resp s stx b =>
    if responseOk s then
      match b with
      | .json j => .ok (unwrapEnvelope j)
      | .empty => .error (handleRequestError (.jsError emptyBodyParseMsg))
      | .invalid pm => .error (handleRequestError (.jsError pm))
    else
      .error (handleRequestError (.apiErr (handleHttpError s stx b)))

/-- ApiClient.put: identical handling to post. -/
def putResult (_reqBody : Json) : RequestOutcome → Except ApiError Json
  | .netFail m => .error (handleRequestError (.jsError m))
  | .resp s stx b =>
    if responseOk s then
      match b with
      | .json j => .ok (unwrapEnvelope j)
      | .empty => .error (handleRequestError (.jsError emptyBodyParseMsg))
      | .invalid pm => .error (handleRequestError (.jsError pm))
    else
      .error (handleRequestError (.apiErr (handleHttpError s stx b)))

/-- ApiClient.patch: identical handling to post. -/
def patchResult (_reqBody : Json) : RequestOutcome → Except ApiError Json
  | .netFail m => .error (handleRequestError (.jsError m))
  | .resp s stx b =>
    if responseOk s then
      match b with
      | .json j => .ok (unwrapEnvelope j)
      | .empty => .error (handleRequestError (.jsError emptyBodyParseMsg))
      | .invalid pm => .error (handleRequestError (.jsError pm))
    else
      .error (handleRequestError (.apiErr (handleHttpError s stx b)))

/-- ApiClient.delete: like get, except that an empty response body is
returned as the empty object before any JSON decoding is attempted. -/
def deleteResult : RequestOutcome → Except ApiError Json
  | .netFail m => .error (handleRequestError (.jsError m))
  | .resp s stx b =>
    if responseOk s then
      match b with
      | .json j => .ok (unwrapEnvelope j)
      | .empty => .ok (.obj [])
      | .invalid pm => .error (handleRequestError (.jsError pm))
    else
      .error (handleRequestError (.apiErr (handleHttpError s stx b)))

/-! Helper lemmas about the embedded list primitives. -/

theorem findIndexP_nil {α : Type} (pred : α → Bool) :
    findIndexP pred [] = none := rfl

theorem findIndexP_eq_none {α : Type} (pred : α → Bool) (l : List α)
    (h : ∀ x ∈ l, pred x = false) : findIndexP pred l = none := by
  induction l with
  | nil => rfl
  | cons a l ih =>
    have ha : pred a = false := h a (by simp)
    simp [findIndexP, ha, ih fun x hx => h x (by simp [hx])]

theorem findIndexP_isSome {α : Type} (pred : α → Bool) (l : List α)
    (h : ∃ x ∈ l, pred x = true) : ∃ i, findIndexP pred l = some i := by
  induction l with
  | nil => simp at h
  | cons a l ih =>
    by_cases ha : pred a = true
    · exact ⟨0, by simp [findIndexP, ha]⟩
    · obtain ⟨x, hx, hpx⟩ := h
      rcases List.mem_cons.mp hx with rfl | hx
      · exact absurd hpx ha
      · obtain ⟨i, hi⟩ := ih ⟨x, hx, hpx⟩
        exact ⟨i + 1, by simp [findIndexP, Bool.of_not_eq_true ha, hi]⟩

theorem findIndexP_getElem {α : Type} (pred : α → Bool) (l : List α) (i : Nat)
    (h : findIndexP pred l = some i) :
    ∃ x, l[i]? = some x ∧ pred x = true := by
  induction l generalizing i with
  | nil => simp [findIndexP] at h
  | cons a l ih =>
    by_cases ha : pred a = true
    · simp [findIndexP, ha] at h
      exact ⟨a, by simp [← h], ha⟩
    · simp [findIndexP, Bool.of_not_eq_true ha] at h
      obtain ⟨j, hj, rfl⟩ := h
      obtain ⟨x, hx, hpx⟩ := ih j hj
      exact ⟨x, by simpa using hx, hpx⟩

theorem set_getElem?_self {α : Type} (l : List α) (i : Nat) (x : α)
    (h : l[i]? = some x) : l.set i x = l := by
  induction l generalizing i with
  | nil => simp at h
  | cons a l ih =>
    cases i with
    | zero => simp at h; simp [h]
    | succ j => simp at h; simp [List.set, ih j h]

/-- The combined behavior of findIndex plus splice on a list with pairwise
distinct ids: removing the first match of an existing id is removing every
record carrying that id, and nothing else. -/
theorem eraseIdx_findIndexP_filter (l : List Post) (id : Nat)
    (hnd : (l.map Post.id).Nodup) (hmem : ∃ p ∈ l, p.id = id) :
    ∃ i, findIndexP (fun p => p.id == id) l = some i ∧
      l.eraseIdx i = l.filter (fun p => !(p.id == id)) := by
  induction l with
  | nil => simp at hmem
  | cons a l ih =>
    by_cases ha : a.id = id
    · refine ⟨0, by simp [findIndexP, ha], ?_⟩
      have hrest : ∀ p ∈ l, (!(p.id == id)) = true := by
        intro p hp
        have : a.id ∉ l.map Post.id := (List.nodup_cons.mp (by simpa using hnd)).1
        have hne : p.id ≠ a.id := by
          intro heq
          exact this (heq ▸ List.mem_map_of_mem Post.id hp)
        simp [ha ▸ hne]
      simp [List.eraseIdx, ha, List.filter_eq_self.mpr hrest]
    · have hmem' : ∃ p ∈ l, p.id = id := by
        obtain ⟨p, hp, hpid⟩ := hmem
        rcases List.mem_cons.mp hp with rfl | hp
        · exact absurd hpid ha
        · exact ⟨p, hp, hpid⟩
      obtain ⟨i, hfi, herase⟩ := ih (List.Nodup.of_cons (by simpa using hnd)) hmem'
      refine ⟨i + 1, ?_, ?_⟩
      · simp [findIndexP, ha, hfi]
      · simp [List.eraseIdx, ha, herase]

theorem find?_append_of_none {α : Type} (p : α → Bool) (l₁ l₂ : List α)
    (h : ∀ x ∈ l₁, p x = false) : (l₁ ++ l₂).find? p = l₂.find? p := by
  induction l₁ with
  | nil => simp
  | cons a l ih =>
    have ha := h a (by simp)
    simp [List.find?_cons, ha, ih fun x hx => h x (by simp [hx])]

/-! Claim theorems. -/

/-- C3: for every store state and create payload whose userId names no
existing user, PostsService.create fails with the bad-request
(invalid-input, HTTP 400) exception and leaves the store untouched; the
result is never the not-found kind. -/
theorem create_unknown_user_is_badRequest (st : PostState) (dto : CreatePostDto)
    (h : usersExists st.users dto.userId = false) :
    create st dto =
      (.error (.badRequest ("User with ID " ++ toString dto.userId ++ " not found")), st) := by
  simp [create, h]

/-- Witness for C3: creating a post for the absent user 99 in the seeded
store fails with bad-request. -/
theorem create_unknown_user_is_badRequest_witness :
    usersExists seedPostState.users 99 = false ∧
    create seedPostState { userId := 99, title := "hello", body := "helloworld!" } =
      (.error (.badRequest "User with ID 99 not found"), seedPostState) :=
  ⟨by decide,
    create_unknown_user_is_badRequest seedPostState
      { userId := 99, title := "hello", body := "helloworld!" } (by decide)⟩

/-- C5: for every state and userId, findByUserId returns a sublist of the
store list (hence in the same relative order) whose members are exactly
the posts with the given userId. -/
theorem findByUserId_exact (st : PostState) (uid : Nat) :
    (findByUserId st uid).Sublist (findAll st) ∧
      ∀ p : Post, p ∈ findByUserId st uid ↔ p ∈ findAll st ∧ p.userId = uid := by
  refine ⟨List.filter_sublist _, fun p => ?_⟩
  simp [findByUserId, findAll, List.mem_filter]

/-- C10: whenever create, update or remove fails, the store state (posts
list and nextId counter) after the call equals the state before it. -/
theorem store_ops_failure_atomic (st : PostState) (dto : CreatePostDto)
    (id : Nat) (udto : UpdatePostDto) :
    ((create st dto).1.isOk = false → (create st dto).2 = st) ∧
    ((update st id udto).1.isOk = false → (update st id udto).2 = st) ∧
    ((remove st id).1.isOk = false → (remove st id).2 = st) := by
  refine ⟨?_, ?_, ?_⟩
  · intro h
    by_cases hc : usersExists st.users dto.userId
    · simp [create, hc, Except.isOk, Except.toBool] at h
    · simp [create, hc]
  · intro h
    unfold update at h ⊢
    cases hfi : findIndexP (fun p => p.id == id) st.posts with
    | none => simp [hfi]
    | some i =>
      simp only [hfi] at h ⊢
      by_cases hchk : (match udto.userId with
          | some u => jsTruthyNat u && !(usersExists st.users u)
          | none => false) = true
      · simp [hchk]
      · simp only [hchk, if_neg, Bool.false_eq_true, if_false] at h ⊢
        cases hget : st.posts[i]? with
        | some old => simp [hget, Except.isOk, Except.toBool] at h
        | none => simp [hget]
  · intro h
    unfold remove at h ⊢
    cases hfi : findIndexP (fun p => p.id == id) st.posts with
    | none => simp [hfi]
    | some i => simp [hfi, Except.isOk, Except.toBool] at h

/-- Witness for C10: a create for an absent user, an update of an absent
post and a remove of an absent post all fail on the seeded store and leave
it unchanged. -/
theorem store_ops_failure_atomic_witness :
    ((create seedPostState { userId := 99, title := "hello", body := "helloworld!" }).1.isOk = false ∧
      (create seedPostState { userId := 99, title := "hello", body := "helloworld!" }).2 = seedPostState) ∧
    ((update seedPostState 999 { id := none, userId := none, title := none, body := none }).1.isOk = false ∧
      (update seedPostState 999 { id := none, userId := none, title := none, body := none }).2 = seedPostState) ∧
    ((remove seedPostState 999).1.isOk = false ∧
      (remove seedPostState 999).2 = seedPostState) :=
  ⟨⟨by decide,
    (store_ops_failure_atomic seedPostState
      { userId := 99, title := "hello", body := "helloworld!" } 999
      { id := none, userId := none, title := none, body := none }).1 (by decide)⟩,
   ⟨by decide,
    (store_ops_failure_atomic seedPostState
      { userId := 99, title := "hello", body := "helloworld!" } 999
      { id := none, userId := none, title := none, body := none }).2.1 (by decide)⟩,
   ⟨by decide,
    (store_ops_failure_atomic seedPostState
      { userId := 99, title := "hello", body := "helloworld!" } 999
      { id := none, userId := none, title := none, body := none }).2.2 (by decide)⟩⟩

/-- C4: minimum-length validation on create and update: a title of length
4 fails create validation, a body shorter than 10 fails create validation,
a title of length exactly 5 passes the title constraint, an update payload
carrying a length-4 title (or a short body) is rejected, an update payload
with title present and body omitted checks only the title, and an update
payload omitting both checkable fields passes. -/
theorem post_validation_min_length :
    (∀ c : CreatePostDto, c.title.length = 4 → validateCreatePost c = false) ∧
    (∀ c : CreatePostDto, c.body.length < 10 → validateCreatePost c = false) ∧
    (∀ t : String, t.length = 5 → titleValid t = true) ∧
    (∀ (u : UpdatePostDto) (t : String), u.title = some t → t.length = 4 →
      validateUpdatePost u = false) ∧
    (∀ (u : UpdatePostDto) (b : String), u.body = some b → b.length < 10 →
      validateUpdatePost u = false) ∧
    (∀ (u : UpdatePostDto) (t : String), u.title = some t → u.body = none →
      validateUpdatePost u = titleValid t) ∧
    (∀ u : UpdatePostDto, u.title = none → u.body = none →
      validateUpdatePost u = true) := by
  refine ⟨?_, ?_, ?_, ?_, ?_, ?_, ?_⟩
  · intro c h
    simp [validateCreatePost, titleValid, h]
  · intro c h
    have hb : (c.body.length >= 10) = false := by simp; omega
    simp [validateCreatePost, bodyValid, hb]
  · intro t h
    have hne : t ≠ "" := fun he => by simp [he] at h
    simp [titleValid, h, hne]
  · intro u t ht h
    simp [validateUpdatePost, ht, titleValid, h]
  · intro u b hb h
    have hlen : (b.length >= 10) = false := by simp; omega
    simp [validateUpdatePost, hb, bodyValid, hlen]
  · intro u t ht hb
    simp [validateUpdatePost, ht, hb]
  · intro u ht hb
    simp [validateUpdatePost, ht, hb]

/-- Witness for C4: the concrete payloads of the spec examples: a
4-character title is rejected on update, a 5-character title passes the
title constraint, and the all-absent update payload passes. -/
theorem post_validation_min_length_witness :
    ("abcd".length = 4 ∧
      validateUpdatePost { id := none, userId := none, title := some "abcd", body := none } = false) ∧
    ("hello".length = 5 ∧ titleValid "hello" = true) ∧
    validateUpdatePost { id := some 7, userId := some 2, title := none, body := none } = true :=
  ⟨⟨by decide,
     post_validation_min_length.2.2.2.1
       { id := none, userId := none, title := some "abcd", body := none } "abcd" rfl (by decide)⟩,
   ⟨by decide, post_validation_min_length.2.2.1 "hello" (by decide)⟩,
   post_validation_min_length.2.2.2.2.2.2
     { id := some 7, userId := some 2, title := none, body := none } rfl rfl⟩

/-- C6: removing an id absent from the store fails with not-found and
leaves the store unchanged; removing an id present in a store whose ids
are pairwise distinct succeeds, after which the id no longer appears in
findAll while every other record remains (the remaining list is exactly
the original with the carrier of that id filtered out, in order). -/
theorem remove_not_found_and_removal (st : PostState) (id : Nat) :
    ((∀ p ∈ st.posts, p.id ≠ id) →
      remove st id =
        (.error (.notFound ("Post with ID " ++ toString id ++ " not found")), st)) ∧
    ((st.posts.map Post.id).Nodup → (∃ p ∈ st.posts, p.id = id) →
      (remove st id).1 = .ok () ∧
      findAll (remove st id).2 = st.posts.filter (fun p => !(p.id == id)) ∧
      (∀ p ∈ findAll (remove st id).2, p.id ≠ id) ∧
      (∀ p ∈ st.posts, p.id ≠ id → p ∈ findAll (remove st id).2)) := by
  constructor
  · intro h
    have hnone : findIndexP (fun p => p.id == id) st.posts = none :=
      findIndexP_eq_none _ _ fun p hp => by simp [h p hp]
    simp [remove, hnone]
  · intro hnd hmem
    obtain ⟨i, hfi, herase⟩ := eraseIdx_findIndexP_filter st.posts id hnd hmem
    have hres : findAll (remove st id).2 = st.posts.filter (fun p => !(p.id == id)) := by
      simp [remove, hfi, findAll, herase]
    refine ⟨by simp [remove, hfi], hres, ?_, ?_⟩
    · intro p hp
      rw [hres] at hp
      have := (List.mem_filter.mp hp).2
      simpa using this
    · intro p hp hne
      rw [hres]
      exact List.mem_filter.mpr ⟨hp, by simpa using hne⟩

/-- Witness for C6: removing the absent id 999 from the seeded store fails
with not-found; removing the present id 3 succeeds and findAll afterwards
is the seed list without post 3. -/
theorem remove_not_found_and_removal_witness :
    ((∀ p ∈ seedPostState.posts, p.id ≠ 999) ∧
      remove seedPostState 999 =
        (.error (.notFound "Post with ID 999 not found"), seedPostState)) ∧
    ((seedPostState.posts.map Post.id).Nodup ∧ (∃ p ∈ seedPostState.posts, p.id = 3) ∧
      (remove seedPostState 3).1 = .ok () ∧
      findAll (remove seedPostState 3).2 =
        seedPostState.posts.filter (fun p => !(p.id == 3))) :=
  ⟨⟨by decide, (remove_not_found_and_removal seedPostState 999).1 (by decide)⟩,
   ⟨by decide, by decide,
    ((remove_not_found_and_removal seedPostState 3).2 (by decide) (by decide)).1,
    ((remove_not_found_and_removal seedPostState 3).2 (by decide) (by decide)).2.1⟩⟩

/-- C7: round-trip for both stores: creating a user in a user store whose
records do not already use the fresh identifier and fetching the returned
id yields the very record create returned; likewise, creating a post for
an existing user in a post store whose records do not already use nextId
and fetching the returned id yields the very record create returned. -/
theorem create_then_fetch_roundtrip
    (ust : UserState) (udto : CreateUserDto)
    (hfreshU : ∀ u ∈ ust.users, u.id ≠ ust.nextUserId)
    (pst : PostState) (pdto : CreatePostDto)
    (hexists : usersExists pst.users pdto.userId = true)
    (hfreshP : ∀ p ∈ pst.posts, p.id ≠ pst.nextId) :
    (usersFindOne (usersCreate ust udto).2 (usersCreate ust udto).1.id =
      .ok (usersCreate ust udto).1) ∧
    ∃ r : Post, (create pst pdto).1 = .ok r ∧
      findOne (create pst pdto).2 r.id = .ok r := by
  constructor
  · have hskip : ∀ u ∈ ust.users, (u.id == ust.nextUserId) = false := by
      intro u hu
      simp [hfreshU u hu]
    unfold usersCreate usersFindOne
    simp only
    rw [find?_append_of_none _ _ _ hskip]
    simp [List.find?_cons]
  · refine ⟨{ id := pst.nextId, userId := pdto.userId,
              title := pdto.title, body := pdto.body }, ?_, ?_⟩
    · simp [create, hexists]
    · have hskip : ∀ p ∈ pst.posts, (p.id == pst.nextId) = false := by
        intro p hp
        simp [hfreshP p hp]
      unfold create findOne
      simp only [hexists]
      simp only [Bool.not_true, Bool.false_eq_true, if_false]
      rw [find?_append_of_none _ _ _ hskip]
      simp [List.find?_cons]

/-- Witness for C7: a concrete user created in an empty user store and a
concrete post created for user 1 in the seeded post store are both
immediately retrievable as the records create returned. -/
theorem create_then_fetch_roundtrip_witness :
    (∀ u ∈ (⟨[], 1⟩ : UserState).users, u.id ≠ 1) ∧
    usersExists seedPostState.users 1 = true ∧
    (∀ p ∈ seedPostState.posts, p.id ≠ seedPostState.nextId) ∧
    (usersFindOne
        (usersCreate ⟨[], 1⟩
          { name := "John Doe", username := "johndoe", email := "john@example.com",
            phone := none, website := none, address := none, company := none }).2
        (usersCreate ⟨[], 1⟩
          { name := "John Doe", username := "johndoe", email := "john@example.com",
            phone := none, website := none, address := none, company := none }).1.id =
      .ok (usersCreate ⟨[], 1⟩
          { name := "John Doe", username := "johndoe", email := "john@example.com",
            phone := none, website := none, address := none, company := none }).1) ∧
    ∃ r : Post,
      (create seedPostState { userId := 1, title := "hello", body := "helloworld!" }).1 = .ok r ∧
      findOne (create seedPostState { userId := 1, title := "hello", body := "helloworld!" }).2 r.id =
        .ok r :=
  ⟨by decide, by decide, by decide,
   (create_then_fetch_roundtrip ⟨[], 1⟩
      { name := "John Doe", username := "johndoe", email := "john@example.com",
        phone := none, website := none, address := none, company := none }
      (by decide) seedPostState { userId := 1, title := "hello", body := "helloworld!" }
      (by decide) (by decide)).1,
   (create_then_fetch_roundtrip ⟨[], 1⟩
      { name := "John Doe", username := "johndoe", email := "john@example.com",
        phone := none, website := none, address := none, company := none }
      (by decide) seedPostState { userId := 1, title := "hello", body := "helloworld!" }
      (by decide) (by decide)).2⟩

/-- One call to the post store, with its arguments. -/
inductive StoreOp where
  | createOp (dto : CreatePostDto)
  | updateOp (id : Nat) (dto : UpdatePostDto)
  | removeOp (id : Nat)

/-- The state after one store call, successful or not (failed calls leave
the state as they found it). -/
def applyOp (st : PostState) : StoreOp → PostState
  | .createOp dto => (create st dto).2
  | .updateOp id dto => (update st id dto).2
  | .removeOp id => (remove st id).2

/-- An operation whose payload does not carry the optional id key of
UpdatePostDto (create and remove payloads never can). -/
def keepsId : StoreOp → Bool
  | .updateOp _ dto => dto.id.isNone
  | _ => true

/-- The identifier discipline of the store: every post id is below the
counter and the ids are pairwise distinct. -/
def goodIds (st : PostState) : Prop :=
  (∀ p ∈ st.posts, p.id < st.nextId) ∧ (st.posts.map Post.id).Nodup

/-- The state after a sequence of store calls. -/
def runOps (st : PostState) (ops : List StoreOp) : PostState :=
  ops.foldl applyOp st

theorem goodIds_applyOp (st : PostState) (op : StoreOp)
    (hg : goodIds st) (hk : keepsId op = true) : goodIds (applyOp st op) := by
  obtain ⟨hlt, hnd⟩ := hg
  cases op with
  | createOp dto =>
    by_cases hc : usersExists st.users dto.userId
    · have hstate : applyOp st (.createOp dto) =
          { st with
            posts := st.posts ++
              [{ id := st.nextId, userId := dto.userId,
                 title := dto.title, body := dto.body }]
            nextId := st.nextId + 1 } := by
        simp [applyOp, create, hc]
      rw [hstate]
      refine ⟨?_, ?_⟩
      · intro p hp
        rcases List.mem_append.mp hp with hp | hp
        · exact Nat.lt_succ_of_lt (hlt p hp)
        · simp at hp
          simp [hp]
      · rw [List.map_append]
        refine List.nodup_append.mpr ⟨hnd, by simp, ?_⟩
        intro a ha hb
        simp at hb
        obtain ⟨p, hp, rfl⟩ := List.mem_map.mp ha
        exact absurd hb (Nat.ne_of_lt (hlt p hp))
    · have hstate : applyOp st (.createOp dto) = st := by
        simp [applyOp, create, hc]
      rw [hstate]
      exact ⟨hlt, hnd⟩
  | updateOp id dto =>
    simp only [keepsId, Option.isNone_iff_eq_none] at hk
    cases hfi : findIndexP (fun p => p.id == id) st.posts with
    | none =>
      have hstate : applyOp st (.updateOp id dto) = st := by
        simp [applyOp, update, hfi]
      rw [hstate]
      exact ⟨hlt, hnd⟩
    | some i =>
      by_cases hchk : (match dto.userId with
          | some u => jsTruthyNat u && !(usersExists st.users u)
          | none => false) = true
      · have hstate : applyOp st (.updateOp id dto) = st := by
          simp only [applyOp, update, hfi]
          rw [if_pos hchk]
        rw [hstate]
        exact ⟨hlt, hnd⟩
      · cases hget : st.posts[i]? with
        | none =>
          have hstate : applyOp st (.updateOp id dto) = st := by
            simp only [applyOp, update, hfi]
            rw [if_neg hchk]
            simp [hget]
          rw [hstate]
          exact ⟨hlt, hnd⟩
        | some old =>
          have hstate : applyOp st (.updateOp id dto) =
              { st with posts := st.posts.set i (applyUpdate old dto) } := by
            simp only [applyOp, update, hfi]
            rw [if_neg hchk]
            simp [hget]
          have hid : (applyUpdate old dto).id = old.id := by
            simp [applyUpdate, hk]
          have hold : old ∈ st.posts := by
            rw [List.getElem?_eq_some] at hget
            obtain ⟨hlen, hv⟩ := hget
            exact hv ▸ List.getElem_mem hlen
          have hmapeq : (st.posts.set i (applyUpdate old dto)).map Post.id =
              st.posts.map Post.id := by
            rw [List.map_set, hid]
            refine set_getElem?_self _ _ _ ?_
            rw [List.getElem?_eq_some] at hget ⊢
            obtain ⟨hlen, hv⟩ := hget
            exact ⟨by simpa using hlen, by simp [List.getElem_map, hv]⟩
          rw [hstate]
          refine ⟨?_, ?_⟩
          · intro p hp
            rcases List.mem_or_eq_of_mem_set hp with hp | rfl
            · exact hlt p hp
            · exact hid ▸ hlt old hold
          · simpa [hmapeq] using hnd
  | removeOp id =>
    cases hfi : findIndexP (fun p => p.id == id) st.posts with
    | none =>
      have hstate : applyOp st (.removeOp id) = st := by
        simp [applyOp, remove, hfi]
      rw [hstate]
      exact ⟨hlt, hnd⟩
    | some i =>
      have hstate : applyOp st (.removeOp id) =
          { st with posts := st.posts.eraseIdx i } := by
        simp [applyOp, remove, hfi]
      have hsub : (st.posts.eraseIdx i).Sublist st.posts := List.eraseIdx_sublist _ _
      rw [hstate]
      refine ⟨?_, ?_⟩
      · intro p hp
        exact hlt p (hsub.subset hp)
      · exact List.Nodup.sublist (hsub.map Post.id) hnd

theorem goodIds_runOps (st : PostState) (ops : List StoreOp)
    (hg : goodIds st) (hk : ∀ op ∈ ops, keepsId op = true) :
    goodIds (runOps st ops) := by
  induction ops generalizing st with
  | nil => exact hg
  | cons op ops ih =>
    exact ih (applyOp st op) (goodIds_applyOp st op hg (hk op (by simp)))
      fun o ho => hk o (by simp [ho])

/-- Counterexample to C1: in the seeded store, the caller updates post 1
with a payload whose optional id field is 2 (UpdatePostDto whitelists the
id key); the call succeeds and afterwards two posts carry the identifier
2, so post-store identifier uniqueness is not an invariant and update does
let a caller change a record's identifier. -/
theorem update_id_key_breaks_uniqueness :
    (update seedPostState 1
        { id := some 2, userId := none, title := none, body := none }).1.isOk = true ∧
    ((update seedPostState 1
        { id := some 2, userId := none, title := none, body := none }).2.posts.map Post.id) =
      [2, 2, 3, 4, 5, 6, 7, 8, 9, 10] ∧
    ¬ ((update seedPostState 1
        { id := some 2, userId := none, title := none, body := none }).2.posts.map Post.id).Nodup := by
  refine ⟨by decide, by decide, by decide⟩

/-- C1 as amended: create assigns the next sequential identifier and bumps
the counter, and along every sequence of store calls from the seeded state
in which no update payload carries the optional id key, the posts ids stay
pairwise distinct. -/
theorem store_ids_unique_without_id_key (ops : List StoreOp)
    (hk : ∀ op ∈ ops, keepsId op = true) :
    ((runOps seedPostState ops).posts.map Post.id).Nodup ∧
    ∀ (st : PostState) (dto : CreatePostDto) (r : Post),
      (create st dto).1 = .ok r →
      r.id = st.nextId ∧ (create st dto).2.nextId = st.nextId + 1 := by
  constructor
  · have hseed : goodIds seedPostState := by
      constructor
      · decide
      · decide
    exact (goodIds_runOps seedPostState ops hseed hk).2
  · intro st dto r hr
    by_cases hc : usersExists st.users dto.userId
    · simp only [create, hc, Bool.not_true, Bool.false_eq_true, if_false,
        Except.ok.injEq] at hr ⊢
      subst hr
      simp
    · simp [create, hc] at hr

/-- Witness for C1 as amended: a concrete sequence of one create, one
id-free update and one remove keeps the seeded ids pairwise distinct. -/
theorem store_ids_unique_without_id_key_witness :
    (∀ op ∈ [StoreOp.createOp { userId := 2, title := "hello", body := "helloworld!" },
             StoreOp.updateOp 2 { id := none, userId := none, title := some "fresh title", body := none },
             StoreOp.removeOp 5], keepsId op = true) ∧
    ((runOps seedPostState
        [StoreOp.createOp { userId := 2, title := "hello", body := "helloworld!" },
         StoreOp.updateOp 2 { id := none, userId := none, title := some "fresh title", body := none },
         StoreOp.removeOp 5]).posts.map Post.id).Nodup :=
  ⟨by decide,
   (store_ids_unique_without_id_key
      [StoreOp.createOp { userId := 2, title := "hello", body := "helloworld!" },
       StoreOp.updateOp 2 { id := none, userId := none, title := some "fresh title", body := none },
       StoreOp.removeOp 5] (by decide)).1⟩

/-- Every post of the store references an existing user. -/
def resolvesAll (st : PostState) : Prop :=
  ∀ p ∈ st.posts, usersExists st.users p.userId = true

/-- Counterexample to C2: user 0 does not exist in the seeded store, yet
updating post 1 with a payload whose userId is 0 succeeds (the truthiness
guard in update skips the existence check for 0) and leaves post 1 owned
by the nonexistent user 0 instead of failing with bad-request. -/
theorem update_userId_zero_bypasses_check :
    usersExists seedPostState.users 0 = false ∧
    (update seedPostState 1
        { id := none, userId := some 0, title := none, body := none }).1.isOk = true ∧
    ((update seedPostState 1
        { id := none, userId := some 0, title := none, body := none }).2.posts.map
      Post.userId) = [0, 1, 1, 1, 1, 2, 2, 2, 3, 3] := by
  refine ⟨by decide, by decide, by decide⟩

/-- C2 as amended: an update of an existing post whose payload sets userId
to a nonzero value naming no existing user fails with bad-request and
leaves the store (hence the previous userId) unchanged; and successful
creates, as well as successful updates whose payload userId is absent or
nonzero, preserve the property that every post references an existing
user. A payload userId of 0 is falsy in the guard and bypasses the check. -/
theorem referential_check_amended :
    (∀ (st : PostState) (id : Nat) (dto : UpdatePostDto) (u : Nat),
      dto.userId = some u → u ≠ 0 → usersExists st.users u = false →
      (∃ p ∈ st.posts, p.id = id) →
      update st id dto =
        (.error (.badRequest ("User with ID " ++ toString u ++ " not found")), st)) ∧
    (∀ (st : PostState) (dto : CreatePostDto),
      resolvesAll st → (create st dto).1.isOk = true →
      resolvesAll (create st dto).2) ∧
    (∀ (st : PostState) (id : Nat) (dto : UpdatePostDto),
      resolvesAll st → (∀ u, dto.userId = some u → u ≠ 0) →
      (update st id dto).1.isOk = true →
      resolvesAll (update st id dto).2) := by
  refine ⟨?_, ?_, ?_⟩
  · intro st id dto u hu hu0 hex hmem
    obtain ⟨i, hfi⟩ := findIndexP_isSome (fun p => p.id == id) st.posts
      (by obtain ⟨p, hp, hpid⟩ := hmem; exact ⟨p, hp, by simp [hpid]⟩)
    have hchk : (match dto.userId with
        | some u => jsTruthyNat u && !(usersExists st.users u)
        | none => false) = true := by
      simp [hu, jsTruthyNat, hu0, hex]
    simp only [update, hfi]
    rw [if_pos hchk]
    simp [hu]
  · intro st dto hres hok
    by_cases hc : usersExists st.users dto.userId
    · have hstate : (create st dto).2 =
          { st with
            posts := st.posts ++
              [{ id := st.nextId, userId := dto.userId,
                 title := dto.title, body := dto.body }]
            nextId := st.nextId + 1 } := by
        simp [create, hc]
      rw [hstate]
      intro p hp
      rcases List.mem_append.mp hp with hp | hp
      · exact hres p hp
      · simp at hp
        simp [hp, hc]
    · simp [create, hc, Except.isOk, Except.toBool] at hok
  · intro st id dto hres hnz hok
    cases hfi : findIndexP (fun p => p.id == id) st.posts with
    | none => simp [update, hfi, Except.isOk, Except.toBool] at hok
    | some i =>
      by_cases hchk : (match dto.userId with
          | some u => jsTruthyNat u && !(usersExists st.users u)
          | none => false) = true
      · rw [update] at hok
        simp only [hfi] at hok
        rw [if_pos hchk] at hok
        simp [Except.isOk, Except.toBool] at hok
      · cases hget : st.posts[i]? with
        | none =>
          rw [update] at hok
          simp only [hfi] at hok
          rw [if_neg hchk] at hok
          simp [hget, Except.isOk, Except.toBool] at hok
        | some old =>
          have hstate : (update st id dto).2 =
              { st with posts := st.posts.set i (applyUpdate old dto) } := by
            simp only [update, hfi]
            rw [if_neg hchk]
            simp [hget]
          have hold : old ∈ st.posts := by
            rw [List.getElem?_eq_some] at hget
            obtain ⟨hlen, hv⟩ := hget
            exact hv ▸ List.getElem_mem hlen
          rw [hstate]
          intro p hp
          rcases List.mem_or_eq_of_mem_set hp with hp | rfl
          · exact hres p hp
          · cases huid : dto.userId with
            | none => simpa [applyUpdate, huid] using hres old hold
            | some u =>
              have hu0 : u ≠ 0 := hnz u huid
              have : usersExists st.users u = true := by
                by_contra hne
                exact hchk (by simp [huid, jsTruthyNat, hu0,
                  Bool.of_not_eq_true hne])
              simpa [applyUpdate, huid] using this

/-- Witness for C2 as amended: updating seeded post 1 to the nonexistent
nonzero user 42 fails with bad-request and leaves the store unchanged, and
the seeded store itself satisfies the resolution property which a
successful create for user 2 preserves. -/
theorem referential_check_amended_witness :
    (usersExists seedPostState.users 42 = false ∧
      update seedPostState 1
          { id := none, userId := some 42, title := none, body := none } =
        (.error (.badRequest "User with ID 42 not found"), seedPostState)) ∧
    (resolvesAll seedPostState ∧
      (create seedPostState { userId := 2, title := "hello", body := "helloworld!" }).1.isOk = true ∧
      resolvesAll (create seedPostState
        { userId := 2, title := "hello", body := "helloworld!" }).2) :=
  ⟨⟨by decide,
    referential_check_amended.1 seedPostState 1
      { id := none, userId := some 42, title := none, body := none } 42
      rfl (by decide) (by decide) (by decide)⟩,
   ⟨by unfold resolvesAll; decide, by decide,
    referential_check_amended.2.1 seedPostState
      { userId := 2, title := "hello", body := "helloworld!" }
      (by unfold resolvesAll; decide) (by decide)⟩⟩

/-- Following the claim wording for C8: the decoded body is an object
containing a data key. Stated independently of the truthiness and typeof
tests the code performs, to be compared with them. -/
def specObjectWithData : Json → Bool
  | .obj entries => entries.any (fun kv => kv.1 == "data")
  | _ => false

/-- C8: on every successful (2xx) response with a decoded body, each of
the five verb wrappers returns the unwrapped envelope, and the unwrapping
returns the data field exactly when the decoded body is an object
containing a data key and the raw decoded body otherwise. -/
theorem envelope_unwrap_uniform (s : Nat) (stx : String) (j rb : Json)
    (hok : responseOk s = true) :
    getResult (.resp s stx (.json j)) = .ok (unwrapEnvelope j) ∧
    postResult rb (.resp s stx (.json j)) = .ok (unwrapEnvelope j) ∧
    putResult rb (.resp s stx (.json j)) = .ok (unwrapEnvelope j) ∧
    patchResult rb (.resp s stx (.json j)) = .ok (unwrapEnvelope j) ∧
    deleteResult (.resp s stx (.json j)) = .ok (unwrapEnvelope j) ∧
    (specObjectWithData j = true → unwrapEnvelope j = (jsonGet j "data").getD .null) ∧
    (specObjectWithData j = false → unwrapEnvelope j = j) := by
  refine ⟨by simp [getResult, hok], by simp [postResult, hok],
    by simp [putResult, hok], by simp [patchResult, hok],
    by simp [deleteResult, hok], ?_, ?_⟩
  · intro h
    cases j with
    | obj entries =>
      simp only [specObjectWithData] at h
      simp [unwrapEnvelope, jsTruthy, typeofObject, hasProp, h]
    | null => simp [specObjectWithData] at h
    | bool b => simp [specObjectWithData] at h
    | num n => simp [specObjectWithData] at h
    | str s => simp [specObjectWithData] at h
    | arr items => simp [specObjectWithData] at h
  · intro h
    cases j with
    | obj entries =>
      simp only [specObjectWithData] at h
      simp [unwrapEnvelope, jsTruthy, typeofObject, hasProp, h]
    | null => simp [unwrapEnvelope, jsTruthy]
    | bool b => simp [unwrapEnvelope, typeofObject]
    | num n => simp [unwrapEnvelope, typeofObject]
    | str s => simp [unwrapEnvelope, typeofObject]
    | arr items => simp [unwrapEnvelope, hasProp]

/-- Witness for C8: a 200 response whose body is the envelope object with
data 5 is unwrapped to 5 by the GET wrapper (and the enveloped body is
recognized as an object with a data key), while a bare number body is
returned raw. -/
theorem envelope_unwrap_uniform_witness :
    responseOk 200 = true ∧
    getResult (.resp 200 "OK" (.json (.obj [("data", .num 5)]))) = .ok (.num 5) ∧
    deleteResult (.resp 200 "OK" (.json (.num 7))) = .ok (.num 7) :=
  ⟨by decide,
   (envelope_unwrap_uniform 200 "OK" (.obj [("data", .num 5)]) .null (by decide)).1,
   (envelope_unwrap_uniform 200 "OK" (.num 7) .null (by decide)).2.2.2.2.1⟩

/-- The status carried by an error result, when the result is an error. -/
def errStatus : Except ApiError Json → Option Nat
  | .error e => some e.status
  | .ok _ => none

/-- Counterexample to C9: a request that did receive a server response (a
200 with a body that fails JSON decoding) is normalized to the sentinel
status 0, because the decode failure is an Error instance with no status
property; so status 0 is not produced only for no-response failures. -/
theorem success_parse_failure_status_zero :
    getResult (.resp 200 "OK" (.invalid "Unexpected token N in JSON")) =
      .error { status := 0, message := .str "Unexpected token N in JSON",
               details := .str "Request failed due to network issues" } := by
  simp [getResult, responseOk, handleRequestError]

/-- C9 as amended: every network-level failure is normalized to status 0;
every received non-2xx response passes through as the normalized record of
handleHttpError, whose status is the server status; but a received 2xx
response whose body fails JSON decoding is also normalized to status 0. -/
theorem error_status_normalization :
    (∀ m, errStatus (getResult (.netFail m)) = some 0) ∧
    (∀ m, errStatus (deleteResult (.netFail m)) = some 0) ∧
    (∀ s stx b, responseOk s = false →
      getResult (.resp s stx b) = .error (handleHttpError s stx b) ∧
      (handleHttpError s stx b).status = s) ∧
    (∀ s stx b, responseOk s = false →
      deleteResult (.resp s stx b) = .error (handleHttpError s stx b)) ∧
    (∀ s stx pm, responseOk s = true →
      errStatus (getResult (.resp s stx (.invalid pm))) = some 0) ∧
    (∀ s stx pm, responseOk s = true →
      errStatus (deleteResult (.resp s stx (.invalid pm))) = some 0) := by
  refine ⟨?_, ?_, ?_, ?_, ?_, ?_⟩
  · intro m
    simp [getResult, handleRequestError, errStatus]
  · intro m
    simp [deleteResult, handleRequestError, errStatus]
  · intro s stx b h
    refine ⟨by simp [getResult, h, handleRequestError], ?_⟩
    cases b with
    | json j => cases j <;> rfl
    | empty => rfl
    | invalid pm => rfl
  · intro s stx b h
    simp [deleteResult, h, handleRequestError]
  · intro s stx pm h
    simp [getResult, h, handleRequestError, errStatus]
  · intro s stx pm h
    simp [deleteResult, h, handleRequestError, errStatus]

/-- Witness for C9 as amended: a fetch rejection maps to status 0, a 404
response passes through with status 404, and a 200 response with an
undecodable body maps to status 0. -/
theorem error_status_normalization_witness :
    errStatus (getResult (.netFail "Failed to fetch")) = some 0 ∧
    (responseOk 404 = false ∧
      (handleHttpError 404 "Not Found" .empty).status = 404 ∧
      getResult (.resp 404 "Not Found" .empty) =
        .error (handleHttpError 404 "Not Found" .empty)) ∧
    (responseOk 200 = true ∧
      errStatus (getResult (.resp 200 "OK" (.invalid "Unexpected token"))) = some 0) :=
  ⟨error_status_normalization.1 "Failed to fetch",
   ⟨by decide,
    (error_status_normalization.2.2.1 404 "Not Found" .empty (by decide)).2,
    (error_status_normalization.2.2.1 404 "Not Found" .empty (by decide)).1⟩,
   ⟨by decide,
    error_status_normalization.2.2.2.2.1 200 "OK" "Unexpected token" (by decide)⟩⟩

end AdminDashboard
